import Mathlib

/-!
Verification development for the ruSciBench evaluation harness
(`ru_sci_bench/classification.py`).

The Python source is shallowly embedded: embedding vectors become `List ℤ`
(cosine similarity is invariant under scaling each vector by a positive
factor, so integer-component vectors cover the float vectors' geometry
while keeping every comparison kernel-computable),
the embedding store (a Python dict built from the jsonl file) becomes an
association list `List (ℤ × List ℤ)` consulted with `List.lookup`,
fallible code returns `Except BenchError`, and console output is modelled
as an explicit list of printed lines.  The external scikit-learn calls
(LinearSVC fitting, GridSearchCV, NearestNeighbors, classification_report)
are out of scope per the spec; the classifier's fit/predict is therefore a
function parameter, while the exact cosine nearest-neighbor search is
modelled directly (least index attaining the minimal cosine distance).
-/

set_option maxRecDepth 4000

/-- Dot product of two embedding vectors (componentwise product, summed;
`np.dot` on equal-length vectors). -/
def dot (v w : List ℤ) : ℤ :=
  (List.zipWith (fun a b => a * b) v w).sum

/-- Squared Euclidean norm of a vector, `dot v v`.  Kept as a rational so
that cosine-distance comparisons stay decidable. -/
def sqNorm (v : List ℤ) : ℤ :=
  dot v v

/-- Decides `x * sqrt sb > y * sqrt sa` for rationals with `sa, sb > 0`
without leaving ℚ, by sign analysis and squaring.  This is the comparison
`cosSim(q,a) > cosSim(q,b)` after clearing the positive denominators
`‖q‖·sqrt sa` and `‖q‖·sqrt sb`, where `x = dot q a`, `y = dot q b`,
`sa = sqNorm a`, `sb = sqNorm b`. -/
def simGtB (x y sa sb : ℤ) : Bool :=
  if 0 ≤ x then
    if 0 ≤ y then decide (y ^ 2 * sa < x ^ 2 * sb) else true
  else
    if 0 ≤ y then false else decide (x ^ 2 * sb < y ^ 2 * sa)

/-- `closer q a b` holds when the cosine distance from `q` to `a` is
strictly smaller than from `q` to `b` (for vectors of positive norm; see
`closer_iff_cosineDistance`). -/
def closer (q a b : List ℤ) : Bool :=
  simGtB (dot q a) (dot q b) (sqNorm a) (sqNorm b)

/-- Index returned by the exact nearest-neighbor search
(`NearestNeighbors(n_neighbors=1, metric="cosine").kneighbors`) for a
single query `q` over the candidate list `rs`: the least index attaining
the minimal cosine distance.  Ties are broken toward the lower index,
the deterministic first-match rule the spec leaves implementation-defined. -/
def nearestIndex (q : List ℤ) (rs : List (List ℤ)) : ℕ :=
  (List.range rs.length).foldl
    (fun best i => if closer q (rs.getD i []) (rs.getD best []) then i else best) 0

/-- Real-valued cosine distance `1 - dot v w / (‖v‖ ‖w‖)` used by the
retrieval evaluator. -/
noncomputable def cosineDistance (v w : List ℤ) : ℝ :=
  1 - (dot v w : ℝ) / (Real.sqrt (sqNorm v : ℝ) * Real.sqrt (sqNorm w : ℝ))

/-- Abstract error taxonomy of the spec (section 7). -/
inductive BenchError where
  | emptyInput
  | missingEmbedding
deriving DecidableEq, Repr

/-- Value stored under a metric name: a numeric score or the textual
classification report. -/
inductive MetricValue where
  | num (x : ℚ)
  | report (s : String)
deriving DecidableEq, Repr

/-- A single task's result dictionary, insertion-ordered. -/
abbrev MetricResult := List (String × MetricValue)

/-- The overall report: task name → MetricResult, insertion-ordered. -/
abbrev Report := List (String × MetricResult)

/-- The embedding store: document id → vector, as an association list. -/
abbrev Store := List (ℤ × List ℤ)

/-- `translation_search(queries_embs, results_embs, n_jobs)`: fit an exact
cosine nearest-neighbor index on `results_embs`, query it with each of
`queries_embs`, compare the returned top indices with `arange(len(results))`
and return the fraction of agreements as `recall@1`.  The two guards model
scikit-learn's input validation: `fit` and `kneighbors` both reject an
empty array (the spec's `EmptyInputError`). -/
def translation_search (queries_embs results_embs : List (List ℤ)) :
    Except BenchError MetricResult :=
  if results_embs.isEmpty then .error .emptyInput
  else if queries_embs.isEmpty then .error .emptyInput
  else
    let top_index := queries_embs.map (fun q => nearestIndex q results_embs)
    let correct_indexes := List.range results_embs.length
    let is_correct :=
      (List.zipWith (fun a b => a == b) top_index correct_indexes).count true
    .ok [("recall@1", .num ((is_correct : ℚ) / (correct_indexes.length : ℚ)))]

/-- Look up the embedding of each id, left to right; the first id with no
embedding aborts with `MissingEmbeddingError` (Python's `KeyError` on
`embeddings[id_]`, named per the spec).  No id is silently skipped. -/
def lookupEmbeddings (embeddings : Store) (ids : List ℤ) :
    Except BenchError (List (List ℤ)) :=
  match ids with
  | [] => .ok []
  | i :: rest =>
    match embeddings.lookup i with
    | none => .error .missingEmbedding
    | some v =>
      match lookupEmbeddings embeddings rest with
      | .error e => .error e
      | .ok vs => .ok (v :: vs)

/-- `get_embeddings_for_translation_search(embeddings, path)`: the
translation-test JSON mapping is already parsed into ordered pairs
(Russian id, English id); build the Russian-side array from the keys and
the English-side array from the values, in the mapping's iteration
order. -/
def get_embeddings_for_translation_search (embeddings : Store)
    (translation_test : List (ℤ × ℤ)) :
    Except BenchError (List (List ℤ) × List (List ℤ)) :=
  match lookupEmbeddings embeddings (translation_test.map Prod.fst) with
  | .error e => .error e
  | .ok ru_embs =>
    match lookupEmbeddings embeddings (translation_test.map Prod.snd) with
    | .error e => .error e
    | .ok en_embs => .ok (ru_embs, en_embs)

/-- `get_X_y_for_classification(embeddings, train_path, test_path)`: the
two label CSVs are already parsed into ordered (id, label) rows; map every
id to its embedding (train first, then test) and return the labels in file
order. -/
def get_X_y_for_classification (embeddings : Store)
    (train test : List (ℤ × ℤ)) :
    Except BenchError (List (List ℤ) × List (List ℤ) × List ℤ × List ℤ) :=
  match lookupEmbeddings embeddings (train.map Prod.fst) with
  | .error e => .error e
  | .ok X_train =>
    match lookupEmbeddings embeddings (test.map Prod.fst) with
    | .error e => .error e
    | .ok X_test => .ok (X_train, X_test, train.map Prod.snd, test.map Prod.snd)

/-- Averaging mode of `sklearn.metrics.f1_score`: `uniform` is the
`average="macro"` unweighted mean over classes, `weighted` is
`average="weighted"` (per-class F1 weighted by test-set support). -/
inductive F1Average where
  | uniform
  | weighted
deriving DecidableEq, Repr

/-- True positives of class `c`: positions where truth and prediction both
equal `c`. -/
def truePos (y_true y_pred : List ℤ) (c : ℤ) : ℕ :=
  (List.zip y_true y_pred).countP (fun p => p.1 == c && p.2 == c)

/-- Per-class F1: `2·tp / (pred_c + true_c)`, which equals the harmonic
mean `2·p·r/(p+r)` of precision and recall whenever that is defined, and is
`0` (sklearn's `zero_division` behavior) when class `c` occurs in neither
list (in ℚ, `x / 0 = 0`). -/
def f1_class (y_true y_pred : List ℤ) (c : ℤ) : ℚ :=
  (2 * truePos y_true y_pred c : ℚ) / ((y_pred.count c : ℚ) + (y_true.count c : ℚ))

/-- The class set used by `f1_score` with `labels=None`: the distinct
labels occurring in truth or prediction.  (`np.unique` additionally sorts;
the sums below are permutation-invariant, so first-occurrence order is an
equivalent enumeration of the same set.) -/
def f1_classes (y_true y_pred : List ℤ) : List ℤ :=
  (y_true ++ y_pred).dedup

/-- `sklearn.metrics.f1_score(y_true, y_pred, average=...)` over exact
rationals.  An empty class set (both lists empty) yields `0`, matching
sklearn's warned `0.0`. -/
def f1_score (y_true y_pred : List ℤ) (average : F1Average) : ℚ :=
  match average with
  | .uniform =>
    ((f1_classes y_true y_pred).map (f1_class y_true y_pred)).sum /
      ((f1_classes y_true y_pred).length : ℚ)
  | .weighted =>
    ((f1_classes y_true y_pred).map
        (fun c => (y_true.count c : ℚ) * f1_class y_true y_pred c)).sum /
      (((f1_classes y_true y_pred).map (fun c => (y_true.count c : ℚ))).sum)

/-- Modelled from the spec: `classification_report` is provided by the
external scikit-learn library (out of scope per spec section 1); the spec
describes it only as a human-readable per-class table.  The claims depend
solely on its presence in the result, never on its text. -/
def classification_report (y_true y_pred : List ℤ) : String :=
  String.intercalate "\n"
    ((f1_classes y_true y_pred).map
      (fun c => toString c ++ " f1 " ++ toString (f1_class y_true y_pred c)))

/-- The scikit-learn estimator configured by `classify`: either a bare
`LinearSVC(loss, max_iter, random_state, C)` (`C = none` means the library
default regularization strength) or a `GridSearchCV(estimator, cv,
param_grid={"C": grid}, scoring, verbose, n_jobs)` (`scoring = none` means
the estimator's default scoring). -/
inductive SvmEstimator where
  | linearSVC (loss : String) (max_iter : ℕ) (random_state : ℕ) (C : Option ℚ)
  | gridSearchCV (estimator : SvmEstimator) (cv : ℕ) (param_grid_C : List ℚ)
      (scoring : Option String) (verbose : Bool) (n_jobs : ℤ)
deriving DecidableEq, Repr

/-- `np.logspace(-4, 2, 7)`: seven log-uniformly spaced values
`10^(-4), 10^(-3), …, 10^2`. -/
def np_logspace_m4_2_7 : List ℚ :=
  (List.range 7).map (fun i => (10 : ℚ) ^ ((i : ℤ) - 4))

/-- The estimator `classify` fits: a `LinearSVC` with squared-hinge loss,
`random_state=42` and default `C`, wrapped in a 3-fold `GridSearchCV` over
`np.logspace(-4, 2, 7)` with default scoring exactly when `grid_search_cv`
is set. -/
def classify_svm (grid_search_cv : Bool) (max_iter : ℕ) (silent : Bool)
    (n_jobs : ℤ) : SvmEstimator :=
  let estimator := SvmEstimator.linearSVC "squared_hinge" max_iter 42 none
  if grid_search_cv then
    SvmEstimator.gridSearchCV estimator 3 np_logspace_m4_2_7 none (!silent) n_jobs
  else estimator

/-- The black-box fit-then-predict of the configured estimator (external
library call): given the estimator, `X_train`, `y_train` and `X_test`, it
returns the predicted labels for `X_test`. -/
abbrev FitPredict := SvmEstimator → List (List ℤ) → List ℤ → List (List ℤ) → List ℤ

/-- Modelled from the spec: console output produced while fitting.
`GridSearchCV` is created with `verbose=not silent`, so fitting prints
progress lines exactly when grid search is enabled and `silent` is false;
with `verbose=0` nothing is printed. -/
def grid_search_out (grid_search_cv : Bool) (silent : Bool) : List String :=
  if grid_search_cv && !silent then ["Fitting 3 folds for each of 7 candidates"]
  else []

/-- `classify(X_train, y_train, X_test, y_test, grid_search_cv, n_jobs,
max_iter, get_cls_report, silent)`: configure the estimator, fit and
predict via the external library, then assemble the metric dictionary:
`macro_f1` and `weighted_f1` always, `cls_report` exactly when requested.
Returns the result together with the lines printed while fitting. -/
def classify (fit_predict : FitPredict)
    (X_train : List (List ℤ)) (y_train : List ℤ)
    (X_test : List (List ℤ)) (y_test : List ℤ)
    (grid_search_cv : Bool) (n_jobs : ℤ) (max_iter : ℕ)
    (get_cls_report : Bool) (silent : Bool) : MetricResult × List String :=
  let svm := classify_svm grid_search_cv max_iter silent n_jobs
  let y_pred := fit_predict svm X_train y_train X_test
  let result : MetricResult :=
    [("macro_f1", .num (f1_score y_test y_pred .uniform)),
     ("weighted_f1", .num (f1_score y_test y_pred .weighted))]
  let result :=
    if get_cls_report then
      result ++ [("cls_report", .report (classification_report y_test y_pred))]
    else result
  (result, grid_search_out grid_search_cv silent)

/-- Modelled from the spec: `print_metrics(name, results, silent)` lives in
`ru_sci_bench/utils.py`, which is not part of the provided source.  Per the
spec, per-task metrics are surfaced on the console as tasks complete iff
`silent` is false; its exact formatting is out of scope.  Returned here as
the list of printed lines. -/
def print_metrics (task_name : String) (silent : Bool) : List String :=
  if silent then [] else [task_name ++ " metrics"]

/-- Modelled from the spec: `DataPaths` (from `ru_sci_bench/utils.py`, not
in the provided source) names the per-task input files.  File parsing is an
out-of-scope input contract, so each path is replaced by the parsed
contents of its file: (id, label) rows for the CSVs, (Russian id, English
id) pairs for the translation mapping. -/
structure DataPaths where
  ru_en_translation_test : List (ℤ × ℤ)
  elibrary_oecd_full_train : List (ℤ × ℤ)
  elibrary_oecd_full_test : List (ℤ × ℤ)
  elibrary_grnti_full_train : List (ℤ × ℤ)
  elibrary_grnti_full_test : List (ℤ × ℤ)
  elibrary_oecd_ru_train : List (ℤ × ℤ)
  elibrary_oecd_ru_test : List (ℤ × ℤ)
  elibrary_grnti_ru_train : List (ℤ × ℤ)
  elibrary_grnti_ru_test : List (ℤ × ℤ)
  elibrary_oecd_en_train : List (ℤ × ℤ)
  elibrary_oecd_en_test : List (ℤ × ℤ)
  elibrary_grnti_en_train : List (ℤ × ℤ)
  elibrary_grnti_en_test : List (ℤ × ℤ)

/-- The `metrics` argument of `get_ru_sci_bench_metrics`: either a single
string or a list of task-name strings (`Union[str, list[str]]`). -/
inductive MetricsArg where
  | str (s : String)
  | list (l : List String)
deriving DecidableEq, Repr

/-- Whether `needle` starts the character list `hay`. -/
def charsStartWith : List Char → List Char → Bool
  | [], _ => true
  | _ :: _, [] => false
  | a :: as, b :: bs => a == b && charsStartWith as bs

/-- Whether `needle` occurs as a contiguous run inside `hay` (Python's
substring containment `needle in hay` on strings). -/
def occursIn (needle : List Char) : List Char → Bool
  | [] => needle.isEmpty
  | b :: bs => charsStartWith needle (b :: bs) || occursIn needle bs

/-- Python `task in s` for strings: substring containment. -/
def strContains (s task : String) : Bool :=
  occursIn task.data s.data

/-- The task-selection test `metrics in ["all", task] or task in metrics`:
for a string argument this is equality with `"all"` or the task name, or
substring containment; for a list argument, `metrics in [...]` is false
(a list never equals a string) and `task in metrics` is list membership. -/
def taskSelected (metrics : MetricsArg) (task : String) : Bool :=
  match metrics with
  | .str s => (s == "all" || s == task) || strContains s task
  | .list l => l.contains task

/-- One classification sub-task as run by the orchestrator: assemble the
dataset (which may abort with `MissingEmbeddingError`) and only then fit,
predict and score via `classify`. -/
def run_classification_task (fit_predict : FitPredict) (embeddings : Store)
    (train test : List (ℤ × ℤ)) (get_cls_report grid_search_cv : Bool)
    (n_jobs : ℤ) (max_iter : ℕ) (silent : Bool) :
    Except BenchError (MetricResult × List String) :=
  match get_X_y_for_classification embeddings train test with
  | .error e => .error e
  | .ok (X_train, X_test, y_train, y_test) =>
    .ok (classify fit_predict X_train y_train X_test y_test grid_search_cv
      n_jobs max_iter get_cls_report silent)

/-- The `translation_search` branch of the orchestrator: build the aligned
query sets once, run retrieval ru→en then en→ru, and record the two
results under their fixed names in that order, together with the progress
lines printed along the way. -/
def translation_search_block (embeddings : Store) (data : DataPaths)
    (n_jobs : ℤ) (silent : Bool) : Except BenchError (Report × List String) :=
  match get_embeddings_for_translation_search embeddings data.ru_en_translation_test with
  | .error e => .error e
  | .ok (ru_embs, en_embs) =>
    match translation_search ru_embs en_embs with
    | .error e => .error e
    | .ok r1 =>
      match translation_search en_embs ru_embs with
      | .error e => .error e
      | .ok r2 =>
        .ok ([("ru_en_translation_search", r1), ("en_ru_translation_search", r2)],
          (if silent then [] else ["Running the eLibrary translation search task..."])
            ++ print_metrics "ru_en_translation_search" silent
            ++ print_metrics "en_ru_translation_search" silent)

/-- The `full_classification` branch: the OECD-full task, then the
GRNTI-full task. -/
def full_classification_block (fit_predict : FitPredict) (embeddings : Store)
    (data : DataPaths) (get_cls_report grid_search_cv : Bool) (n_jobs : ℤ)
    (max_iter : ℕ) (silent : Bool) : Except BenchError (Report × List String) :=
  match run_classification_task fit_predict embeddings
      data.elibrary_oecd_full_train data.elibrary_oecd_full_test
      get_cls_report grid_search_cv n_jobs max_iter silent with
  | .error e => .error e
  | .ok (res1, out1) =>
    match run_classification_task fit_predict embeddings
        data.elibrary_grnti_full_train data.elibrary_grnti_full_test
        get_cls_report grid_search_cv n_jobs max_iter silent with
    | .error e => .error e
    | .ok (res2, out2) =>
      .ok ([("elibrary_oecd_full", res1), ("elibrary_grnti_full", res2)],
        (if silent then [] else ["Running the eLibrary OECD-full task..."])
          ++ out1 ++ print_metrics "elibrary_oecd_full" silent
          ++ (if silent then [] else ["Running the eLibrary GRNTI-full task..."])
          ++ out2 ++ print_metrics "elibrary_grnti_full" silent)

/-- The `ru_classification` branch: OECD-ru, then GRNTI-ru (these two
branches additionally print "Classifier training..."). -/
def ru_classification_block (fit_predict : FitPredict) (embeddings : Store)
    (data : DataPaths) (get_cls_report grid_search_cv : Bool) (n_jobs : ℤ)
    (max_iter : ℕ) (silent : Bool) : Except BenchError (Report × List String) :=
  match run_classification_task fit_predict embeddings
      data.elibrary_oecd_ru_train data.elibrary_oecd_ru_test
      get_cls_report grid_search_cv n_jobs max_iter silent with
  | .error e => .error e
  | .ok (res1, out1) =>
    match run_classification_task fit_predict embeddings
        data.elibrary_grnti_ru_train data.elibrary_grnti_ru_test
        get_cls_report grid_search_cv n_jobs max_iter silent with
    | .error e => .error e
    | .ok (res2, out2) =>
      .ok ([("elibrary_oecd_ru", res1), ("elibrary_grnti_ru", res2)],
        (if silent then [] else ["Running the eLibrary OECD-ru task...", "Classifier training..."])
          ++ out1 ++ print_metrics "elibrary_oecd_ru" silent
          ++ (if silent then [] else ["Running the eLibrary GRNTI-ru task...", "Classifier training..."])
          ++ out2 ++ print_metrics "elibrary_grnti_ru" silent)

/-- The `en_classification` branch: OECD-en, then GRNTI-en. -/
def en_classification_block (fit_predict : FitPredict) (embeddings : Store)
    (data : DataPaths) (get_cls_report grid_search_cv : Bool) (n_jobs : ℤ)
    (max_iter : ℕ) (silent : Bool) : Except BenchError (Report × List String) :=
  match run_classification_task fit_predict embeddings
      data.elibrary_oecd_en_train data.elibrary_oecd_en_test
      get_cls_report grid_search_cv n_jobs max_iter silent with
  | .error e => .error e
  | .ok (res1, out1) =>
    match run_classification_task fit_predict embeddings
        data.elibrary_grnti_en_train data.elibrary_grnti_en_test
        get_cls_report grid_search_cv n_jobs max_iter silent with
    | .error e => .error e
    | .ok (res2, out2) =>
      .ok ([("elibrary_oecd_en", res1), ("elibrary_grnti_en", res2)],
        (if silent then [] else ["Running the eLibrary OECD-en task...", "Classifier training..."])
          ++ out1 ++ print_metrics "elibrary_oecd_en" silent
          ++ (if silent then [] else ["Running the eLibrary GRNTI-en task...", "Classifier training..."])
          ++ out2 ++ print_metrics "elibrary_grnti_en" silent)

/-- `get_ru_sci_bench_metrics(embeddings_path, metrics, get_cls_report,
grid_search_cv, n_jobs, max_iter, silent)`: the embeddings are loaded once
(the loader itself is an out-of-scope input contract, so the already-built
store is a parameter), then the four task families run strictly in the
fixed order translation search, full, ru, en classification, each guarded
by `taskSelected`, accumulating results (insertion order = evaluation
order) and console lines; an uncaught task error aborts the whole run. -/
def get_ru_sci_bench_metrics (fit_predict : FitPredict) (embeddings : Store)
    (data : DataPaths) (metrics : MetricsArg) (get_cls_report grid_search_cv : Bool)
    (n_jobs : ℤ) (max_iter : ℕ) (silent : Bool) :
    Except BenchError (Report × List String) :=
  let load_out : List String := if silent then [] else ["Loading embeddings..."]
  match (if taskSelected metrics "translation_search" then
      translation_search_block embeddings data n_jobs silent else .ok ([], [])) with
  | .error e => .error e
  | .ok (r1, o1) =>
    match (if taskSelected metrics "full_classification" then
        full_classification_block fit_predict embeddings data get_cls_report
          grid_search_cv n_jobs max_iter silent else .ok ([], [])) with
    | .error e => .error e
    | .ok (r2, o2) =>
      match (if taskSelected metrics "ru_classification" then
          ru_classification_block fit_predict embeddings data get_cls_report
            grid_search_cv n_jobs max_iter silent else .ok ([], [])) with
      | .error e => .error e
      | .ok (r3, o3) =>
        match (if taskSelected metrics "en_classification" then
            en_classification_block fit_predict embeddings data get_cls_report
              grid_search_cv n_jobs max_iter silent else .ok ([], [])) with
        | .error e => .error e
        | .ok (r4, o4) =>
          .ok (r1 ++ r2 ++ r3 ++ r4, load_out ++ o1 ++ o2 ++ o3 ++ o4)

/-! ### Lemmas about the embedding lookups -/

theorem lookupEmbeddings_ok_length (embeddings : Store) :
    ∀ (ids : List ℤ) (xs : List (List ℤ)),
      lookupEmbeddings embeddings ids = .ok xs → xs.length = ids.length := by
  intro ids
  induction ids with
  | nil =>
    intro xs h
    simp only [lookupEmbeddings] at h
    cases h
    rfl
  | cons i rest ih =>
    intro xs h
    simp only [lookupEmbeddings] at h
    cases hl : embeddings.lookup i with
    | none => rw [hl] at h; cases h
    | some v =>
      rw [hl] at h
      cases hr : lookupEmbeddings embeddings rest with
      | error e => rw [hr] at h; cases h
      | ok vs =>
        rw [hr] at h
        cases h
        simp [ih vs hr]

theorem lookupEmbeddings_ok_getD (embeddings : Store) :
    ∀ (ids : List ℤ) (xs : List (List ℤ)),
      lookupEmbeddings embeddings ids = .ok xs →
      ∀ i < ids.length, embeddings.lookup (ids.getD i 0) = some (xs.getD i []) := by
  intro ids
  induction ids with
  | nil =>
    intro xs _ i hi
    exact absurd hi (by simp)
  | cons j rest ih =>
    intro xs h i hi
    simp only [lookupEmbeddings] at h
    cases hl : embeddings.lookup j with
    | none => rw [hl] at h; cases h
    | some v =>
      rw [hl] at h
      cases hr : lookupEmbeddings embeddings rest with
      | error e => rw [hr] at h; cases h
      | ok vs =>
        rw [hr] at h
        cases h
        cases i with
        | zero => simpa using hl
        | succ i' =>
          have hi' : i' < rest.length := by simpa using hi
          simpa using ih vs hr i' hi'

theorem lookupEmbeddings_error_kind (embeddings : Store) :
    ∀ (ids : List ℤ) (e : BenchError),
      lookupEmbeddings embeddings ids = .error e → e = .missingEmbedding := by
  intro ids
  induction ids with
  | nil =>
    intro e h
    simp only [lookupEmbeddings] at h
    cases h
  | cons j rest ih =>
    intro e h
    simp only [lookupEmbeddings] at h
    cases hl : embeddings.lookup j with
    | none => rw [hl] at h; cases h; rfl
    | some v =>
      rw [hl] at h
      cases hr : lookupEmbeddings embeddings rest with
      | error e1 => rw [hr] at h; cases h; exact ih _ hr
      | ok vs => rw [hr] at h; cases h

theorem lookupEmbeddings_error_of_missing (embeddings : Store) :
    ∀ (ids : List ℤ), (∃ i ∈ ids, embeddings.lookup i = none) →
      lookupEmbeddings embeddings ids = .error .missingEmbedding := by
  intro ids
  induction ids with
  | nil => rintro ⟨i, hi, _⟩; cases hi
  | cons j rest ih =>
    rintro ⟨i, hi, hnone⟩
    simp only [lookupEmbeddings]
    cases hl : embeddings.lookup j with
    | none => rfl
    | some v =>
      have hrest : i ∈ rest := by
        rcases List.mem_cons.mp hi with h | h
        · subst h; rw [hl] at hnone; cases hnone
        · exact h
      rw [ih ⟨i, hrest, hnone⟩]

theorem getD_map_of_lt {α β : Type} (f : α → β) (l : List α) (i : ℕ)
    (hi : i < l.length) (d : α) (d2 : β) :
    (l.map f).getD i d2 = f (l.getD i d) := by
  rw [List.getD_eq_getElem _ _ (by simpa using hi), List.getD_eq_getElem _ _ hi,
    List.getElem_map]

/-! ### Claim theorems: dataset assembly and emptiness -/

/-- C6: for every translation mapping, the retrieval query-set builder
produces two equal-length embedding arrays in which position `i` of the
query array and position `i` of the candidate array are the embeddings of,
respectively, the Russian id and the English id of the `i`-th translation
pair in the mapping's iteration order. -/
theorem translation_query_set_aligned (embeddings : Store)
    (translation_test : List (ℤ × ℤ)) (ru_embs en_embs : List (List ℤ))
    (h : get_embeddings_for_translation_search embeddings translation_test
      = .ok (ru_embs, en_embs)) :
    ru_embs.length = translation_test.length ∧
    en_embs.length = translation_test.length ∧
    ∀ i < translation_test.length,
      embeddings.lookup (translation_test.getD i (0, 0)).1 = some (ru_embs.getD i []) ∧
      embeddings.lookup (translation_test.getD i (0, 0)).2 = some (en_embs.getD i []) := by
  simp only [get_embeddings_for_translation_search] at h
  cases hru : lookupEmbeddings embeddings (translation_test.map Prod.fst) with
  | error e => rw [hru] at h; cases h
  | ok ru =>
    rw [hru] at h
    cases hen : lookupEmbeddings embeddings (translation_test.map Prod.snd) with
    | error e => rw [hen] at h; cases h
    | ok en =>
      rw [hen] at h
      cases h
      refine ⟨by simpa using lookupEmbeddings_ok_length _ _ _ hru,
        by simpa using lookupEmbeddings_ok_length _ _ _ hen, ?_⟩
      intro i hi
      constructor
      · have := lookupEmbeddings_ok_getD _ _ _ hru i (by simpa using hi)
        rwa [getD_map_of_lt Prod.fst _ _ hi (0, 0) 0] at this
      · have := lookupEmbeddings_ok_getD _ _ _ hen i (by simpa using hi)
        rwa [getD_map_of_lt Prod.snd _ _ hi (0, 0) 0] at this

theorem translation_query_set_aligned_witness :
    let emb : Store := [(1, [1, 0]), (2, [0, 1])]
    let tt : List (ℤ × ℤ) := [(1, 2)]
    [[(1 : ℤ), 0]].length = tt.length ∧
    [[(0 : ℤ), 1]].length = tt.length ∧
    ∀ i < tt.length,
      emb.lookup (tt.getD i (0, 0)).1 = some ([[(1 : ℤ), 0]].getD i []) ∧
      emb.lookup (tt.getD i (0, 0)).2 = some ([[(0 : ℤ), 1]].getD i []) :=
  translation_query_set_aligned [(1, [1, 0]), (2, [0, 1])] [(1, 2)]
    [[1, 0]] [[0, 1]] (by rfl)

/-- C7: a classification dataset assembly that does not raise
`MissingEmbeddingError` yields, for each split, exactly one feature row
per input example, in input order (row `i` is the embedding of the id in
row `i` of the label file), and the labels in input order — no silent
drops, no reordering. -/
theorem get_X_y_row_alignment (embeddings : Store) (train test : List (ℤ × ℤ))
    (X_train X_test : List (List ℤ)) (y_train y_test : List ℤ)
    (h : get_X_y_for_classification embeddings train test
      = .ok (X_train, X_test, y_train, y_test)) :
    X_train.length = train.length ∧ X_test.length = test.length ∧
    y_train = train.map Prod.snd ∧ y_test = test.map Prod.snd ∧
    (∀ i < train.length,
      embeddings.lookup (train.getD i (0, 0)).1 = some (X_train.getD i [])) ∧
    (∀ i < test.length,
      embeddings.lookup (test.getD i (0, 0)).1 = some (X_test.getD i [])) := by
  simp only [get_X_y_for_classification] at h
  cases htr : lookupEmbeddings embeddings (train.map Prod.fst) with
  | error e => rw [htr] at h; cases h
  | ok xtr =>
    rw [htr] at h
    cases hte : lookupEmbeddings embeddings (test.map Prod.fst) with
    | error e => rw [hte] at h; cases h
    | ok xte =>
      rw [hte] at h
      cases h
      refine ⟨by simpa using lookupEmbeddings_ok_length _ _ _ htr,
        by simpa using lookupEmbeddings_ok_length _ _ _ hte, rfl, rfl, ?_, ?_⟩
      · intro i hi
        have := lookupEmbeddings_ok_getD _ _ _ htr i (by simpa using hi)
        rwa [getD_map_of_lt Prod.fst _ _ hi (0, 0) 0] at this
      · intro i hi
        have := lookupEmbeddings_ok_getD _ _ _ hte i (by simpa using hi)
        rwa [getD_map_of_lt Prod.fst _ _ hi (0, 0) 0] at this

theorem get_X_y_row_alignment_witness :
    let emb : Store := [(1, [1, 0]), (2, [0, 1])]
    let train : List (ℤ × ℤ) := [(1, 5)]
    let test : List (ℤ × ℤ) := [(2, 7)]
    [[(1 : ℤ), 0]].length = train.length ∧ [[(0 : ℤ), 1]].length = test.length ∧
    [(5 : ℤ)] = train.map Prod.snd ∧ [(7 : ℤ)] = test.map Prod.snd ∧
    (∀ i < train.length,
      emb.lookup (train.getD i (0, 0)).1 = some ([[(1 : ℤ), 0]].getD i [])) ∧
    (∀ i < test.length,
      emb.lookup (test.getD i (0, 0)).1 = some ([[(0 : ℤ), 1]].getD i [])) :=
  get_X_y_row_alignment [(1, [1, 0]), (2, [0, 1])] [(1, 5)] [(2, 7)]
    [[1, 0]] [[0, 1]] [5] [7] (by rfl)

/-- C3: if some example id in the train or test label file has no
embedding in the store, the assembler fails with `MissingEmbeddingError`,
and the whole classification sub-task fails the same way whatever the
classifier would have predicted — fitting never happens and no example is
silently skipped. -/
theorem get_X_y_missing_embedding (embeddings : Store) (train test : List (ℤ × ℤ))
    (fit_predict : FitPredict) (get_cls_report grid_search_cv : Bool)
    (n_jobs : ℤ) (max_iter : ℕ) (silent : Bool)
    (h : ∃ id_ ∈ train.map Prod.fst ++ test.map Prod.fst,
      embeddings.lookup id_ = none) :
    get_X_y_for_classification embeddings train test = .error .missingEmbedding ∧
    run_classification_task fit_predict embeddings train test get_cls_report
      grid_search_cv n_jobs max_iter silent = .error .missingEmbedding := by
  obtain ⟨i, hi, hnone⟩ := h
  have hmain : get_X_y_for_classification embeddings train test
      = .error .missingEmbedding := by
    simp only [get_X_y_for_classification]
    rcases List.mem_append.mp hi with hin | hin
    · rw [lookupEmbeddings_error_of_missing embeddings _ ⟨i, hin, hnone⟩]
    · cases htr : lookupEmbeddings embeddings (train.map Prod.fst) with
      | error e => rw [lookupEmbeddings_error_kind _ _ _ htr]
      | ok xtr => rw [lookupEmbeddings_error_of_missing embeddings _ ⟨i, hin, hnone⟩]
  refine ⟨hmain, ?_⟩
  simp only [run_classification_task, hmain]

theorem get_X_y_missing_embedding_witness :
    get_X_y_for_classification [] [(99, 0)] [] = .error .missingEmbedding ∧
    run_classification_task (fun _ _ _ _ => []) [] [(99, 0)] [] false false
      (-1) 100 true = .error .missingEmbedding :=
  get_X_y_missing_embedding [] [(99, 0)] [] (fun _ _ _ _ => []) false false
    (-1) 100 true (by decide)

/-- C2: an empty query set — in particular the one produced by an empty
translation mapping — makes `translation_search` fail with
`EmptyInputError` instead of returning NaN or silently dividing by
zero. -/
theorem translation_search_empty_input (embeddings : Store)
    (queries_embs results_embs : List (List ℤ)) (h : queries_embs = []) :
    get_embeddings_for_translation_search embeddings [] = .ok ([], []) ∧
    translation_search queries_embs results_embs = .error .emptyInput := by
  subst h
  refine ⟨rfl, ?_⟩
  simp only [translation_search]
  cases results_embs <;> simp

theorem translation_search_empty_input_witness :
    get_embeddings_for_translation_search [(1, [1, 0])] [] = .ok ([], []) ∧
    translation_search [] [[1, 0]] = .error .emptyInput :=
  translation_search_empty_input [(1, [1, 0])] [] [[1, 0]] rfl

/-- C9: with cross-validation enabled, `classify` selects `C` by 3-fold
cross-validated grid search over exactly the 7 log-uniformly spaced values
`1e-4 … 1e2` with the classifier's default scoring; with it disabled, the
bare `LinearSVC` keeps its default regularization strength (`C = none`). -/
theorem classify_grid_search_config (max_iter : ℕ) (silent : Bool) (n_jobs : ℤ) :
    classify_svm true max_iter silent n_jobs
      = .gridSearchCV (.linearSVC "squared_hinge" max_iter 42 none) 3
          np_logspace_m4_2_7 none (!silent) n_jobs ∧
    np_logspace_m4_2_7
      = [1 / 10000, 1 / 1000, 1 / 100, 1 / 10, 1, 10, 100] ∧
    np_logspace_m4_2_7.length = 7 ∧
    classify_svm false max_iter silent n_jobs
      = .linearSVC "squared_hinge" max_iter 42 none :=
  ⟨rfl, by simp [np_logspace_m4_2_7, List.range_succ]; norm_num, by rfl, rfl⟩

/-! ### Lemmas about the F1 metrics -/

theorem truePos_le_count_true :
    ∀ (y_true y_pred : List ℤ) (c : ℤ), truePos y_true y_pred c ≤ y_true.count c := by
  intro y_true
  induction y_true with
  | nil => intro y_pred c; simp [truePos]
  | cons a t ih =>
    intro y_pred c
    cases y_pred with
    | nil => simp [truePos]
    | cons b p =>
      have hrec := ih p c
      simp only [truePos] at hrec ⊢
      rw [List.zip_cons_cons, List.countP_cons, List.count_cons]
      have hle : (if ((a, b).1 == c && (a, b).2 == c) = true then 1 else 0)
          ≤ (if (a == c) = true then 1 else 0) := by
        by_cases h : ((a, b).1 == c && (a, b).2 == c) = true
        · have ha : (a == c) = true := by
            simp only [Bool.and_eq_true] at h
            exact h.1
          simp only [h, ha]
          simp
          split <;> norm_num
        · simp [h]
      omega

theorem truePos_le_count_pred :
    ∀ (y_true y_pred : List ℤ) (c : ℤ), truePos y_true y_pred c ≤ y_pred.count c := by
  intro y_true
  induction y_true with
  | nil => intro y_pred c; simp [truePos]
  | cons a t ih =>
    intro y_pred c
    cases y_pred with
    | nil => simp [truePos]
    | cons b p =>
      have hrec := ih p c
      simp only [truePos] at hrec ⊢
      rw [List.zip_cons_cons, List.countP_cons, List.count_cons]
      have hle : (if ((a, b).1 == c && (a, b).2 == c) = true then 1 else 0)
          ≤ (if (b == c) = true then 1 else 0) := by
        by_cases h : ((a, b).1 == c && (a, b).2 == c) = true
        · have hb : (b == c) = true := by
            simp only [Bool.and_eq_true] at h
            exact h.2
          simp only [h, hb]
          simp
          split <;> norm_num
        · simp [h]
      omega

theorem f1_class_nonneg (y_true y_pred : List ℤ) (c : ℤ) :
    0 ≤ f1_class y_true y_pred c := by
  unfold f1_class
  positivity

theorem f1_class_le_one (y_true y_pred : List ℤ) (c : ℤ) :
    f1_class y_true y_pred c ≤ 1 := by
  unfold f1_class
  by_cases hd : ((y_pred.count c : ℚ) + (y_true.count c : ℚ)) = 0
  · rw [hd, div_zero]
    norm_num
  · have hdpos : 0 < ((y_pred.count c : ℚ) + (y_true.count c : ℚ)) :=
      lt_of_le_of_ne (by positivity) (Ne.symm hd)
    rw [div_le_one hdpos]
    have h1 := truePos_le_count_pred y_true y_pred c
    have h2 := truePos_le_count_true y_true y_pred c
    have h3 : 2 * truePos y_true y_pred c ≤ y_pred.count c + y_true.count c := by omega
    exact_mod_cast h3

theorem f1_score_nonneg (y_true y_pred : List ℤ) (average : F1Average) :
    0 ≤ f1_score y_true y_pred average := by
  cases average with
  | uniform =>
    apply div_nonneg _ (by positivity)
    apply List.sum_nonneg
    intro x hx
    obtain ⟨c, _, rfl⟩ := List.mem_map.mp hx
    exact f1_class_nonneg y_true y_pred c
  | weighted =>
    apply div_nonneg
    · apply List.sum_nonneg
      intro x hx
      obtain ⟨c, _, rfl⟩ := List.mem_map.mp hx
      exact mul_nonneg (by positivity) (f1_class_nonneg y_true y_pred c)
    · apply List.sum_nonneg
      intro x hx
      obtain ⟨c, _, rfl⟩ := List.mem_map.mp hx
      positivity

theorem f1_score_le_one (y_true y_pred : List ℤ) (average : F1Average) :
    f1_score y_true y_pred average ≤ 1 := by
  cases average with
  | uniform =>
    unfold f1_score
    by_cases hk : ((f1_classes y_true y_pred).length : ℚ) = 0
    · rw [hk, div_zero]; norm_num
    · have hkpos : 0 < ((f1_classes y_true y_pred).length : ℚ) :=
        lt_of_le_of_ne (by positivity) (Ne.symm hk)
      rw [div_le_one hkpos]
      have := List.sum_le_card_nsmul
        ((f1_classes y_true y_pred).map (f1_class y_true y_pred)) 1 ?_
      · simpa using this
      · intro x hx
        obtain ⟨c, _, rfl⟩ := List.mem_map.mp hx
        exact f1_class_le_one y_true y_pred c
  | weighted =>
    unfold f1_score
    by_cases hk : (((f1_classes y_true y_pred).map
        (fun c => (y_true.count c : ℚ))).sum) = 0
    · rw [hk, div_zero]; norm_num
    · have hnn : 0 ≤ (((f1_classes y_true y_pred).map
          (fun c => (y_true.count c : ℚ))).sum) := by
        apply List.sum_nonneg
        intro x hx
        obtain ⟨c, _, rfl⟩ := List.mem_map.mp hx
        positivity
      have hkpos := lt_of_le_of_ne hnn (Ne.symm hk)
      rw [div_le_one hkpos]
      calc ((f1_classes y_true y_pred).map
              (fun c => (y_true.count c : ℚ) * f1_class y_true y_pred c)).sum
          ≤ ((f1_classes y_true y_pred).map (fun c => (y_true.count c : ℚ))).sum := by
            apply List.sum_le_sum
            intro c _
            have := f1_class_le_one y_true y_pred c
            have h0 := f1_class_nonneg y_true y_pred c
            nlinarith [Nat.cast_nonneg (α := ℚ) (y_true.count c)]

/-- C8: every `classify` call returns exactly the keys `macro_f1` and
`weighted_f1` (with the claimed values, both in `[0, 1]`) plus `cls_report`
if and only if the full-report option is enabled — no other keys. -/
theorem classify_result_contract (fit_predict : FitPredict)
    (X_train : List (List ℤ)) (y_train : List ℤ) (X_test : List (List ℤ))
    (y_test : List ℤ) (grid_search_cv : Bool) (n_jobs : ℤ) (max_iter : ℕ)
    (get_cls_report : Bool) (silent : Bool) :
    (classify fit_predict X_train y_train X_test y_test grid_search_cv n_jobs
        max_iter get_cls_report silent).1
      = [("macro_f1", .num (f1_score y_test
            (fit_predict (classify_svm grid_search_cv max_iter silent n_jobs)
              X_train y_train X_test) .uniform)),
         ("weighted_f1", .num (f1_score y_test
            (fit_predict (classify_svm grid_search_cv max_iter silent n_jobs)
              X_train y_train X_test) .weighted))]
        ++ (if get_cls_report then
              [("cls_report", .report (classification_report y_test
                (fit_predict (classify_svm grid_search_cv max_iter silent n_jobs)
                  X_train y_train X_test)))]
            else []) ∧
    (classify fit_predict X_train y_train X_test y_test grid_search_cv n_jobs
        max_iter get_cls_report silent).1.map Prod.fst
      = ["macro_f1", "weighted_f1"]
        ++ (if get_cls_report then ["cls_report"] else []) ∧
    (0 : ℚ) ≤ f1_score y_test
        (fit_predict (classify_svm grid_search_cv max_iter silent n_jobs)
          X_train y_train X_test) .uniform ∧
    f1_score y_test
        (fit_predict (classify_svm grid_search_cv max_iter silent n_jobs)
          X_train y_train X_test) .uniform ≤ 1 ∧
    (0 : ℚ) ≤ f1_score y_test
        (fit_predict (classify_svm grid_search_cv max_iter silent n_jobs)
          X_train y_train X_test) .weighted ∧
    f1_score y_test
        (fit_predict (classify_svm grid_search_cv max_iter silent n_jobs)
          X_train y_train X_test) .weighted ≤ 1 := by
  refine ⟨?_, ?_, f1_score_nonneg _ _ _, f1_score_le_one _ _ _,
    f1_score_nonneg _ _ _, f1_score_le_one _ _ _⟩
  · cases get_cls_report <;> simp [classify]
  · cases get_cls_report <;> simp [classify]

/-! ### Lemmas about the orchestrator blocks -/

theorem run_classification_task_out (fit_predict : FitPredict) (embeddings : Store)
    (train test : List (ℤ × ℤ)) (get_cls_report grid_search_cv : Bool)
    (n_jobs : ℤ) (max_iter : ℕ) (silent : Bool) (res : MetricResult) (out : List String)
    (h : run_classification_task fit_predict embeddings train test get_cls_report
      grid_search_cv n_jobs max_iter silent = .ok (res, out)) :
    out = grid_search_out grid_search_cv silent := by
  simp only [run_classification_task] at h
  cases hx : get_X_y_for_classification embeddings train test with
  | error e => rw [hx] at h; cases h
  | ok q =>
    obtain ⟨X_train, X_test, y_train, y_test⟩ := q
    rw [hx] at h
    cases h
    rfl

theorem translation_search_block_spec (embeddings : Store) (data : DataPaths)
    (n_jobs : ℤ) (silent : Bool) (r : Report) (o : List String)
    (h : translation_search_block embeddings data n_jobs silent = .ok (r, o)) :
    r.map Prod.fst = ["ru_en_translation_search", "en_ru_translation_search"] ∧
    (silent = true → o = []) := by
  simp only [translation_search_block] at h
  cases hg : get_embeddings_for_translation_search embeddings
      data.ru_en_translation_test with
  | error e => rw [hg] at h; cases h
  | ok pair =>
    obtain ⟨ru_embs, en_embs⟩ := pair
    rw [hg] at h
    dsimp only at h
    cases h1 : translation_search ru_embs en_embs with
    | error e => rw [h1] at h; cases h
    | ok r1 =>
      rw [h1] at h
      dsimp only at h
      cases h2 : translation_search en_embs ru_embs with
      | error e => rw [h2] at h; cases h
      | ok r2 =>
        rw [h2] at h
        dsimp only at h
        cases h
        refine ⟨rfl, ?_⟩
        rintro rfl
        simp [print_metrics]

theorem full_classification_block_spec (fit_predict : FitPredict) (embeddings : Store)
    (data : DataPaths) (get_cls_report grid_search_cv : Bool) (n_jobs : ℤ)
    (max_iter : ℕ) (silent : Bool) (r : Report) (o : List String)
    (h : full_classification_block fit_predict embeddings data get_cls_report
      grid_search_cv n_jobs max_iter silent = .ok (r, o)) :
    r.map Prod.fst = ["elibrary_oecd_full", "elibrary_grnti_full"] ∧
    (silent = true → o = []) := by
  simp only [full_classification_block] at h
  cases h1 : run_classification_task fit_predict embeddings
      data.elibrary_oecd_full_train data.elibrary_oecd_full_test
      get_cls_report grid_search_cv n_jobs max_iter silent with
  | error e => rw [h1] at h; cases h
  | ok pr1 =>
    obtain ⟨res1, out1⟩ := pr1
    rw [h1] at h
    dsimp only at h
    cases h2 : run_classification_task fit_predict embeddings
        data.elibrary_grnti_full_train data.elibrary_grnti_full_test
        get_cls_report grid_search_cv n_jobs max_iter silent with
    | error e => rw [h2] at h; cases h
    | ok pr2 =>
      obtain ⟨res2, out2⟩ := pr2
      rw [h2] at h
      dsimp only at h
      cases h
      refine ⟨rfl, ?_⟩
      rintro rfl
      have ho1 := run_classification_task_out _ _ _ _ _ _ _ _ _ _ _ h1
      have ho2 := run_classification_task_out _ _ _ _ _ _ _ _ _ _ _ h2
      simp [print_metrics, ho1, ho2, grid_search_out]

theorem ru_classification_block_spec (fit_predict : FitPredict) (embeddings : Store)
    (data : DataPaths) (get_cls_report grid_search_cv : Bool) (n_jobs : ℤ)
    (max_iter : ℕ) (silent : Bool) (r : Report) (o : List String)
    (h : ru_classification_block fit_predict embeddings data get_cls_report
      grid_search_cv n_jobs max_iter silent = .ok (r, o)) :
    r.map Prod.fst = ["elibrary_oecd_ru", "elibrary_grnti_ru"] ∧
    (silent = true → o = []) := by
  simp only [ru_classification_block] at h
  cases h1 : run_classification_task fit_predict embeddings
      data.elibrary_oecd_ru_train data.elibrary_oecd_ru_test
      get_cls_report grid_search_cv n_jobs max_iter silent with
  | error e => rw [h1] at h; cases h
  | ok pr1 =>
    obtain ⟨res1, out1⟩ := pr1
    rw [h1] at h
    dsimp only at h
    cases h2 : run_classification_task fit_predict embeddings
        data.elibrary_grnti_ru_train data.elibrary_grnti_ru_test
        get_cls_report grid_search_cv n_jobs max_iter silent with
    | error e => rw [h2] at h; cases h
    | ok pr2 =>
      obtain ⟨res2, out2⟩ := pr2
      rw [h2] at h
      dsimp only at h
      cases h
      refine ⟨rfl, ?_⟩
      rintro rfl
      have ho1 := run_classification_task_out _ _ _ _ _ _ _ _ _ _ _ h1
      have ho2 := run_classification_task_out _ _ _ _ _ _ _ _ _ _ _ h2
      simp [print_metrics, ho1, ho2, grid_search_out]

theorem en_classification_block_spec (fit_predict : FitPredict) (embeddings : Store)
    (data : DataPaths) (get_cls_report grid_search_cv : Bool) (n_jobs : ℤ)
    (max_iter : ℕ) (silent : Bool) (r : Report) (o : List String)
    (h : en_classification_block fit_predict embeddings data get_cls_report
      grid_search_cv n_jobs max_iter silent = .ok (r, o)) :
    r.map Prod.fst = ["elibrary_oecd_en", "elibrary_grnti_en"] ∧
    (silent = true → o = []) := by
  simp only [en_classification_block] at h
  cases h1 : run_classification_task fit_predict embeddings
      data.elibrary_oecd_en_train data.elibrary_oecd_en_test
      get_cls_report grid_search_cv n_jobs max_iter silent with
  | error e => rw [h1] at h; cases h
  | ok pr1 =>
    obtain ⟨res1, out1⟩ := pr1
    rw [h1] at h
    dsimp only at h
    cases h2 : run_classification_task fit_predict embeddings
        data.elibrary_grnti_en_train data.elibrary_grnti_en_test
        get_cls_report grid_search_cv n_jobs max_iter silent with
    | error e => rw [h2] at h; cases h
    | ok pr2 =>
      obtain ⟨res2, out2⟩ := pr2
      rw [h2] at h
      dsimp only at h
      cases h
      refine ⟨rfl, ?_⟩
      rintro rfl
      have ho1 := run_classification_task_out _ _ _ _ _ _ _ _ _ _ _ h1
      have ho2 := run_classification_task_out _ _ _ _ _ _ _ _ _ _ _ h2
      simp [print_metrics, ho1, ho2, grid_search_out]

/-! ### Claim theorems: the benchmark orchestrator -/

/-- C4: selecting `"translation_search"` with `silent = true` yields a
report with exactly the two keys `ru_en_translation_search` and
`en_ru_translation_search`, in that order, and no console output. -/
theorem metrics_translation_search_silent (fit_predict : FitPredict)
    (embeddings : Store) (data : DataPaths) (get_cls_report grid_search_cv : Bool)
    (n_jobs : ℤ) (max_iter : ℕ) (r : Report) (o : List String)
    (h : get_ru_sci_bench_metrics fit_predict embeddings data
      (.str "translation_search") get_cls_report grid_search_cv n_jobs max_iter true
      = .ok (r, o)) :
    r.map Prod.fst = ["ru_en_translation_search", "en_ru_translation_search"] ∧
    o = [] := by
  have h1 : taskSelected (.str "translation_search") "translation_search" = true := by
    rfl
  have h2 : taskSelected (.str "translation_search") "full_classification" = false := by
    rfl
  have h3 : taskSelected (.str "translation_search") "ru_classification" = false := by
    rfl
  have h4 : taskSelected (.str "translation_search") "en_classification" = false := by
    rfl
  simp only [get_ru_sci_bench_metrics, h1, h2, h3, h4, if_true, if_false,
    Bool.false_eq_true, reduceIte] at h
  cases htb : translation_search_block embeddings data n_jobs true with
  | error e => rw [htb] at h; cases h
  | ok pr =>
    obtain ⟨r1, o1⟩ := pr
    rw [htb] at h
    dsimp only at h
    cases h
    have := translation_search_block_spec embeddings data n_jobs true r1 o1 htb
    refine ⟨by simpa using this.1, by simpa using this.2 rfl⟩

theorem metrics_translation_search_silent_witness :
    ([("ru_en_translation_search",
        [("recall@1", MetricValue.num (((1 : ℕ) : ℚ) / ((1 : ℕ) : ℚ)))]),
      ("en_ru_translation_search",
        [("recall@1", MetricValue.num (((1 : ℕ) : ℚ) / ((1 : ℕ) : ℚ)))])] :
        Report).map
        Prod.fst = ["ru_en_translation_search", "en_ru_translation_search"] ∧
    ([] : List String) = [] :=
  metrics_translation_search_silent (fun _ _ _ _ => []) [(1, [1, 0]), (2, [0, 1])]
    ⟨[(1, 2)], [], [], [], [], [], [], [], [], [], [], [], []⟩ false false (-1) 100
    [("ru_en_translation_search",
       [("recall@1", MetricValue.num (((1 : ℕ) : ℚ) / ((1 : ℕ) : ℚ)))]),
     ("en_ru_translation_search",
       [("recall@1", MetricValue.num (((1 : ℕ) : ℚ) / ((1 : ℕ) : ℚ)))])] [] (by rfl)

/-- C5: with the task selector `"all"`, the sub-tasks run and their
results are inserted into the report in the fixed order
`ru_en_translation_search, en_ru_translation_search, elibrary_oecd_full,
elibrary_grnti_full, elibrary_oecd_ru, elibrary_grnti_ru,
elibrary_oecd_en, elibrary_grnti_en`. -/
theorem metrics_all_task_order (fit_predict : FitPredict) (embeddings : Store)
    (data : DataPaths) (get_cls_report grid_search_cv : Bool) (n_jobs : ℤ)
    (max_iter : ℕ) (silent : Bool) (r : Report) (o : List String)
    (h : get_ru_sci_bench_metrics fit_predict embeddings data (.str "all")
      get_cls_report grid_search_cv n_jobs max_iter silent = .ok (r, o)) :
    r.map Prod.fst =
      ["ru_en_translation_search", "en_ru_translation_search",
       "elibrary_oecd_full", "elibrary_grnti_full",
       "elibrary_oecd_ru", "elibrary_grnti_ru",
       "elibrary_oecd_en", "elibrary_grnti_en"] := by
  have h1 : taskSelected (.str "all") "translation_search" = true := by rfl
  have h2 : taskSelected (.str "all") "full_classification" = true := by rfl
  have h3 : taskSelected (.str "all") "ru_classification" = true := by rfl
  have h4 : taskSelected (.str "all") "en_classification" = true := by rfl
  simp only [get_ru_sci_bench_metrics, h1, h2, h3, h4, if_true, reduceIte] at h
  cases hb1 : translation_search_block embeddings data n_jobs silent with
  | error e => rw [hb1] at h; cases h
  | ok pr1 =>
    obtain ⟨r1, o1⟩ := pr1
    rw [hb1] at h
    dsimp only at h
    cases hb2 : full_classification_block fit_predict embeddings data
        get_cls_report grid_search_cv n_jobs max_iter silent with
    | error e => rw [hb2] at h; cases h
    | ok pr2 =>
      obtain ⟨r2, o2⟩ := pr2
      rw [hb2] at h
      dsimp only at h
      cases hb3 : ru_classification_block fit_predict embeddings data
          get_cls_report grid_search_cv n_jobs max_iter silent with
      | error e => rw [hb3] at h; cases h
      | ok pr3 =>
        obtain ⟨r3, o3⟩ := pr3
        rw [hb3] at h
        dsimp only at h
        cases hb4 : en_classification_block fit_predict embeddings data
            get_cls_report grid_search_cv n_jobs max_iter silent with
        | error e => rw [hb4] at h; cases h
        | ok pr4 =>
          obtain ⟨r4, o4⟩ := pr4
          rw [hb4] at h
          dsimp only at h
          cases h
          have k1 := (translation_search_block_spec _ _ _ _ _ _ hb1).1
          have k2 := (full_classification_block_spec _ _ _ _ _ _ _ _ _ _ hb2).1
          have k3 := (ru_classification_block_spec _ _ _ _ _ _ _ _ _ _ hb3).1
          have k4 := (en_classification_block_spec _ _ _ _ _ _ _ _ _ _ hb4).1
          simp [k1, k2, k3, k4]

theorem metrics_all_task_order_witness :
    ([("ru_en_translation_search",
        [("recall@1", MetricValue.num (((1 : ℕ) : ℚ) / ((1 : ℕ) : ℚ)))]),
      ("en_ru_translation_search",
        [("recall@1", MetricValue.num (((1 : ℕ) : ℚ) / ((1 : ℕ) : ℚ)))]),
      ("elibrary_oecd_full",
        [("macro_f1", MetricValue.num (f1_score [0] [0] .uniform)),
         ("weighted_f1", MetricValue.num (f1_score [0] [0] .weighted))]),
      ("elibrary_grnti_full",
        [("macro_f1", MetricValue.num (f1_score [0] [0] .uniform)),
         ("weighted_f1", MetricValue.num (f1_score [0] [0] .weighted))]),
      ("elibrary_oecd_ru",
        [("macro_f1", MetricValue.num (f1_score [0] [0] .uniform)),
         ("weighted_f1", MetricValue.num (f1_score [0] [0] .weighted))]),
      ("elibrary_grnti_ru",
        [("macro_f1", MetricValue.num (f1_score [0] [0] .uniform)),
         ("weighted_f1", MetricValue.num (f1_score [0] [0] .weighted))]),
      ("elibrary_oecd_en",
        [("macro_f1", MetricValue.num (f1_score [0] [0] .uniform)),
         ("weighted_f1", MetricValue.num (f1_score [0] [0] .weighted))]),
      ("elibrary_grnti_en",
        [("macro_f1", MetricValue.num (f1_score [0] [0] .uniform)),
         ("weighted_f1", MetricValue.num (f1_score [0] [0] .weighted))])] :
        Report).map Prod.fst =
      ["ru_en_translation_search", "en_ru_translation_search",
       "elibrary_oecd_full", "elibrary_grnti_full",
       "elibrary_oecd_ru", "elibrary_grnti_ru",
       "elibrary_oecd_en", "elibrary_grnti_en"] :=
  metrics_all_task_order (fun _ _ _ _ => [0]) [(1, [1, 0]), (2, [0, 1])]
    ⟨[(1, 2)], [(1, 0)], [(1, 0)], [(1, 0)], [(1, 0)], [(1, 0)], [(1, 0)],
      [(1, 0)], [(1, 0)], [(1, 0)], [(1, 0)], [(1, 0)], [(1, 0)]⟩
    false false (-1) 100 true _ [] (by rfl)

/-- C10: task selection on a string selector is Python substring
containment, not equality: the non-catalog string
`"my_translation_search_x"` still selects (only) the translation-search
family, so both retrieval sub-tasks run; and a string containing no
catalog name as a substring (here `"ru_sci_bench"`) selects nothing,
yielding an empty report. -/
theorem metrics_substring_selection :
    (taskSelected (.str "my_translation_search_x") "translation_search" = true ∧
     taskSelected (.str "my_translation_search_x") "full_classification" = false ∧
     taskSelected (.str "my_translation_search_x") "ru_classification" = false ∧
     taskSelected (.str "my_translation_search_x") "en_classification" = false) ∧
    (taskSelected (.str "ru_sci_bench") "translation_search" = false ∧
     taskSelected (.str "ru_sci_bench") "full_classification" = false ∧
     taskSelected (.str "ru_sci_bench") "ru_classification" = false ∧
     taskSelected (.str "ru_sci_bench") "en_classification" = false) ∧
    (∀ (fit_predict : FitPredict) (embeddings : Store) (data : DataPaths)
        (get_cls_report grid_search_cv : Bool) (n_jobs : ℤ) (max_iter : ℕ)
        (r : Report) (o : List String),
      get_ru_sci_bench_metrics fit_predict embeddings data
          (.str "my_translation_search_x") get_cls_report grid_search_cv n_jobs
          max_iter true = .ok (r, o) →
      r.map Prod.fst = ["ru_en_translation_search", "en_ru_translation_search"]) ∧
    (∀ (fit_predict : FitPredict) (embeddings : Store) (data : DataPaths)
        (get_cls_report grid_search_cv : Bool) (n_jobs : ℤ) (max_iter : ℕ)
        (silent : Bool),
      get_ru_sci_bench_metrics fit_predict embeddings data (.str "ru_sci_bench")
          get_cls_report grid_search_cv n_jobs max_iter silent
        = .ok ([], if silent then [] else ["Loading embeddings..."])) := by
  refine ⟨⟨rfl, rfl, rfl, rfl⟩, ⟨rfl, rfl, rfl, rfl⟩, ?_, ?_⟩
  · intro fit_predict embeddings data get_cls_report grid_search_cv n_jobs
      max_iter r o h
    have h1 : taskSelected (.str "my_translation_search_x") "translation_search"
        = true := by rfl
    have h2 : taskSelected (.str "my_translation_search_x") "full_classification"
        = false := by rfl
    have h3 : taskSelected (.str "my_translation_search_x") "ru_classification"
        = false := by rfl
    have h4 : taskSelected (.str "my_translation_search_x") "en_classification"
        = false := by rfl
    simp only [get_ru_sci_bench_metrics, h1, h2, h3, h4, if_true, if_false,
      Bool.false_eq_true, reduceIte] at h
    cases htb : translation_search_block embeddings data n_jobs true with
    | error e => rw [htb] at h; cases h
    | ok pr =>
      obtain ⟨r1, o1⟩ := pr
      rw [htb] at h
      dsimp only at h
      cases h
      simpa using (translation_search_block_spec embeddings data n_jobs true
        r1 o1 htb).1
  · intro fit_predict embeddings data get_cls_report grid_search_cv n_jobs
      max_iter silent
    cases silent <;> rfl

theorem metrics_substring_selection_witness :
    ([("ru_en_translation_search",
        [("recall@1", MetricValue.num (((1 : ℕ) : ℚ) / ((1 : ℕ) : ℚ)))]),
      ("en_ru_translation_search",
        [("recall@1", MetricValue.num (((1 : ℕ) : ℚ) / ((1 : ℕ) : ℚ)))])] :
        Report).map
        Prod.fst = ["ru_en_translation_search", "en_ru_translation_search"] ∧
    get_ru_sci_bench_metrics (fun _ _ _ _ => []) [(1, [1, 0]), (2, [0, 1])]
      ⟨[(1, 2)], [], [], [], [], [], [], [], [], [], [], [], []⟩
      (.str "ru_sci_bench") false false (-1) 100 true = .ok ([], []) :=
  ⟨metrics_substring_selection.2.2.1 (fun _ _ _ _ => []) [(1, [1, 0]), (2, [0, 1])]
      ⟨[(1, 2)], [], [], [], [], [], [], [], [], [], [], [], []⟩ false false (-1) 100
      [("ru_en_translation_search",
         [("recall@1", MetricValue.num (((1 : ℕ) : ℚ) / ((1 : ℕ) : ℚ)))]),
       ("en_ru_translation_search",
         [("recall@1", MetricValue.num (((1 : ℕ) : ℚ) / ((1 : ℕ) : ℚ)))])] []
      (by rfl),
    metrics_substring_selection.2.2.2 (fun _ _ _ _ => []) [(1, [1, 0]), (2, [0, 1])]
      ⟨[(1, 2)], [], [], [], [], [], [], [], [], [], [], [], []⟩ false false (-1) 100
      true⟩

/-! ### Lemmas for the retrieval evaluator -/

theorem countP_congr_fun {α : Type} (p q : α → Bool) :
    ∀ (l : List α), (∀ x ∈ l, p x = q x) → l.countP p = l.countP q := by
  intro l
  induction l with
  | nil => intro _; rfl
  | cons a t ih =>
    intro h
    rw [List.countP_cons, List.countP_cons, h a (List.mem_cons_self a t),
      ih (fun x hx => h x (List.mem_cons_of_mem a hx))]

theorem count_zipWith_range (xs : List ℕ) :
    ∀ k, (List.zipWith (fun a b => a == b) xs (List.range' k xs.length)).count true
      = (List.range' k xs.length).countP (fun i => xs.getD (i - k) 0 == i) := by
  induction xs with
  | nil => intro k; simp
  | cons x t ih =>
    intro k
    rw [show (x :: t).length = t.length + 1 from rfl, List.range'_succ]
    rw [show List.zipWith (fun a b => a == b) (x :: t) (k :: List.range' (k + 1) t.length)
        = (x == k) :: List.zipWith (fun a b => a == b) t (List.range' (k + 1) t.length)
      from rfl]
    rw [List.count_cons, List.countP_cons]
    have hhead : ((x :: t).getD (k - k) 0 == k) = (x == k) := by
      simp [Nat.sub_self]
    have htail : (List.range' (k + 1) t.length).countP
          (fun i => (x :: t).getD (i - k) 0 == i)
        = (List.range' (k + 1) t.length).countP (fun i => t.getD (i - (k + 1)) 0 == i) := by
      apply countP_congr_fun
      intro i hi
      have hk : k + 1 ≤ i := by
        rcases List.mem_range'.mp hi with ⟨m, _, rfl⟩
        omega
      have hsub : i - k = (i - (k + 1)) + 1 := by omega
      rw [hsub, List.getD_cons_succ]
    rw [hhead, htail, ih (k + 1)]
    have : ((x == k) == true) = (x == k) := by
      cases h : (x == k) <;> rfl
    rw [this]

theorem getD_mem_of_lt {α : Type} (l : List α) (i : ℕ) (h : i < l.length) (d : α) :
    l.getD i d ∈ l := by
  rw [List.getD_eq_getElem l d h]
  exact List.getElem_mem h

theorem foldl_best_mem (c : ℕ → ℕ → Bool) :
    ∀ (l : List ℕ) (b0 : ℕ),
      (l.foldl (fun best i => if c i best then i else best) b0) = b0 ∨
      (l.foldl (fun best i => if c i best then i else best) b0) ∈ l := by
  intro l
  induction l with
  | nil => intro b0; left; rfl
  | cons a t ih =>
    intro b0
    rw [List.foldl_cons]
    rcases ih (if c a b0 then a else b0) with h | h
    · rw [h]
      by_cases hc : c a b0 = true
      · right
        rw [if_pos hc]
        exact List.mem_cons_self a t
      · left
        rw [if_neg hc]
    · right
      exact List.mem_cons_of_mem a h

theorem foldl_best_min (D : ℕ → ℝ) (c : ℕ → ℕ → Bool) :
    ∀ (l : List ℕ) (b0 : ℕ),
      (∀ i b, i ∈ l → (b = b0 ∨ b ∈ l) → (c i b = true ↔ D i < D b)) →
      D (l.foldl (fun best i => if c i best then i else best) b0) ≤ D b0 ∧
      ∀ j ∈ l, D (l.foldl (fun best i => if c i best then i else best) b0) ≤ D j := by
  intro l
  induction l with
  | nil =>
    intro b0 _
    exact ⟨le_refl _, by simp⟩
  | cons a t ih =>
    intro b0 hc
    rw [List.foldl_cons]
    have hc' : ∀ i b, i ∈ t →
        (b = (if c a b0 then a else b0) ∨ b ∈ t) → (c i b = true ↔ D i < D b) := by
      intro i b hi hb
      apply hc i b (List.mem_cons_of_mem a hi)
      rcases hb with rfl | hb
      · by_cases hca : c a b0 = true
        · rw [if_pos hca]
          right
          exact List.mem_cons_self a t
        · rw [if_neg hca]
          left
          rfl
      · right
        exact List.mem_cons_of_mem a hb
    obtain ⟨h1, h2⟩ := ih (if c a b0 then a else b0) hc'
    have hb1le : D (if c a b0 then a else b0) ≤ D b0 := by
      by_cases hca : c a b0 = true
      · rw [if_pos hca]
        exact le_of_lt ((hc a b0 (List.mem_cons_self a t) (Or.inl rfl)).mp hca)
      · rw [if_neg hca]
    refine ⟨le_trans h1 hb1le, ?_⟩
    intro j hj
    rcases List.mem_cons.mp hj with rfl | hj
    · by_cases hca : c j b0 = true
      · have hb1 : (if c j b0 then j else b0) = j := if_pos hca
        rw [hb1] at h1 ⊢
        exact h1
      · have hnot : ¬ (D j < D b0) :=
          fun hlt => hca ((hc j b0 (List.mem_cons_self j t) (Or.inl rfl)).mpr hlt)
        exact le_trans (le_trans h1 hb1le) (le_of_not_lt hnot)
    · exact h2 j hj

theorem nonneg_mul_sqrt (u s : ℝ) (hu : 0 ≤ u) :
    u * Real.sqrt s = Real.sqrt (u ^ 2 * s) := by
  rw [Real.sqrt_mul (sq_nonneg u) s, Real.sqrt_sq hu]

theorem simGtB_iff (x y sa sb : ℤ) (hsa : 0 < sa) (hsb : 0 < sb) :
    simGtB x y sa sb = true ↔
      (y : ℝ) * Real.sqrt (sa : ℝ) < (x : ℝ) * Real.sqrt (sb : ℝ) := by
  have hsa' : (0 : ℝ) < (sa : ℝ) := by exact_mod_cast hsa
  have hsb' : (0 : ℝ) < (sb : ℝ) := by exact_mod_cast hsb
  have hSa : 0 < Real.sqrt (sa : ℝ) := Real.sqrt_pos.mpr hsa'
  have hSb : 0 < Real.sqrt (sb : ℝ) := Real.sqrt_pos.mpr hsb'
  unfold simGtB
  by_cases hx : (0 : ℤ) ≤ x
  · by_cases hy : (0 : ℤ) ≤ y
    · rw [if_pos hx, if_pos hy, decide_eq_true_eq]
      have hx' : (0 : ℝ) ≤ (x : ℝ) := by exact_mod_cast hx
      have hy' : (0 : ℝ) ≤ (y : ℝ) := by exact_mod_cast hy
      rw [nonneg_mul_sqrt _ _ hy', nonneg_mul_sqrt _ _ hx',
        Real.sqrt_lt_sqrt_iff (by positivity)]
      constructor
      · intro h
        exact_mod_cast h
      · intro h
        exact_mod_cast h
    · rw [if_pos hx, if_neg hy]
      simp only [true_iff]
      have hy' : (y : ℝ) < 0 := by exact_mod_cast lt_of_not_le hy
      have hx' : (0 : ℝ) ≤ (x : ℝ) := by exact_mod_cast hx
      calc (y : ℝ) * Real.sqrt (sa : ℝ) < 0 := mul_neg_of_neg_of_pos hy' hSa
        _ ≤ (x : ℝ) * Real.sqrt (sb : ℝ) := mul_nonneg hx' (le_of_lt hSb)
  · by_cases hy : (0 : ℤ) ≤ y
    · rw [if_neg hx, if_pos hy]
      simp only [Bool.false_eq_true, false_iff, not_lt]
      have hx' : (x : ℝ) < 0 := by exact_mod_cast lt_of_not_le hx
      have hy' : (0 : ℝ) ≤ (y : ℝ) := by exact_mod_cast hy
      calc (x : ℝ) * Real.sqrt (sb : ℝ) ≤ 0 :=
            le_of_lt (mul_neg_of_neg_of_pos hx' hSb)
        _ ≤ (y : ℝ) * Real.sqrt (sa : ℝ) := mul_nonneg hy' (le_of_lt hSa)
    · rw [if_neg hx, if_neg hy, decide_eq_true_eq]
      have hx' : (x : ℝ) < 0 := by exact_mod_cast lt_of_not_le hx
      have hy' : (y : ℝ) < 0 := by exact_mod_cast lt_of_not_le hy
      have hswap : ((y : ℝ) * Real.sqrt (sa : ℝ) < (x : ℝ) * Real.sqrt (sb : ℝ))
          ↔ (-(x : ℝ)) * Real.sqrt (sb : ℝ) < (-(y : ℝ)) * Real.sqrt (sa : ℝ) := by
        constructor
        · intro h
          nlinarith
        · intro h
          nlinarith
      rw [hswap, nonneg_mul_sqrt _ _ (by linarith), nonneg_mul_sqrt _ _ (by linarith),
        Real.sqrt_lt_sqrt_iff (by positivity)]
      have hxx : (-(x : ℝ)) ^ 2 = (x : ℝ) ^ 2 := by ring
      have hyy : (-(y : ℝ)) ^ 2 = (y : ℝ) ^ 2 := by ring
      rw [hxx, hyy]
      constructor
      · intro h
        exact_mod_cast h
      · intro h
        exact_mod_cast h

theorem closer_iff_cosineDistance (q a b : List ℤ) (hq : 0 < sqNorm q)
    (ha : 0 < sqNorm a) (hb : 0 < sqNorm b) :
    closer q a b = true ↔ cosineDistance q a < cosineDistance q b := by
  have hSq : 0 < Real.sqrt ((sqNorm q : ℤ) : ℝ) :=
    Real.sqrt_pos.mpr (by exact_mod_cast hq)
  have hSa : 0 < Real.sqrt ((sqNorm a : ℤ) : ℝ) :=
    Real.sqrt_pos.mpr (by exact_mod_cast ha)
  have hSb : 0 < Real.sqrt ((sqNorm b : ℤ) : ℝ) :=
    Real.sqrt_pos.mpr (by exact_mod_cast hb)
  rw [closer, simGtB_iff _ _ _ _ ha hb]
  unfold cosineDistance
  rw [sub_lt_sub_iff_left]
  rw [div_lt_div_iff (mul_pos hSq hSb) (mul_pos hSq hSa)]
  constructor
  · intro h
    nlinarith
  · intro h
    nlinarith

theorem nearestIndex_spec (q : List ℤ) (rs : List (List ℤ)) (hrs : rs ≠ [])
    (hq : 0 < sqNorm q) (hr : ∀ v ∈ rs, 0 < sqNorm v) :
    nearestIndex q rs < rs.length ∧
    ∀ j < rs.length,
      cosineDistance q (rs.getD (nearestIndex q rs) [])
        ≤ cosineDistance q (rs.getD j []) := by
  have hlen0 : 0 < rs.length := List.length_pos.mpr hrs
  have hc : ∀ i b, i ∈ List.range rs.length → (b = 0 ∨ b ∈ List.range rs.length) →
      ((fun i b => closer q (rs.getD i []) (rs.getD b [])) i b = true ↔
        (fun j => cosineDistance q (rs.getD j [])) i
          < (fun j => cosineDistance q (rs.getD j [])) b) := by
    intro i b hi hb
    have hib : i < rs.length := List.mem_range.mp hi
    have hbb : b < rs.length := by
      rcases hb with rfl | hb
      · exact hlen0
      · exact List.mem_range.mp hb
    exact closer_iff_cosineDistance q _ _ hq (hr _ (getD_mem_of_lt _ _ hib _))
      (hr _ (getD_mem_of_lt _ _ hbb _))
  constructor
  · have h : nearestIndex q rs = 0 ∨ nearestIndex q rs ∈ List.range rs.length :=
      foldl_best_mem (fun i b => closer q (rs.getD i []) (rs.getD b []))
        (List.range rs.length) 0
    rcases h with h0 | hm
    · rw [h0]
      exact hlen0
    · exact List.mem_range.mp hm
  · intro j hj
    have h : ∀ j ∈ List.range rs.length,
        cosineDistance q (rs.getD (nearestIndex q rs) [])
          ≤ cosineDistance q (rs.getD j []) :=
      (foldl_best_min (fun j => cosineDistance q (rs.getD j []))
        (fun i b => closer q (rs.getD i []) (rs.getD b []))
        (List.range rs.length) 0 hc).2
    exact h j (List.mem_range.mpr hj)

/-- C1: for aligned query/candidate arrays (of positive-norm vectors),
`translation_search` returns a single entry `recall@1` equal to the number
of queries whose cosine nearest neighbor (least index attaining the
minimal cosine distance) is the candidate at the query's own index,
divided by the number of queries; the value lies in `[0, 1]` and equals
`1` iff every query's nearest neighbor sits at its own aligned index.  The
final conjunct ties `nearestIndex` to the real cosine distance: it is a
valid index minimizing `cosineDistance` over all candidates. -/
theorem translation_search_recall_spec (qs rs : List (List ℤ))
    (hlen : qs.length = rs.length) (hne : qs ≠ [])
    (hq : ∀ v ∈ qs, 0 < sqNorm v) (hr : ∀ v ∈ rs, 0 < sqNorm v) :
    translation_search qs rs
      = .ok [("recall@1", .num
          ((((List.range qs.length).countP
              (fun i => nearestIndex (qs.getD i []) rs == i) : ℕ) : ℚ)
            / (qs.length : ℚ)))] ∧
    0 ≤ (((List.range qs.length).countP
        (fun i => nearestIndex (qs.getD i []) rs == i) : ℕ) : ℚ)
      / (qs.length : ℚ) ∧
    (((List.range qs.length).countP
        (fun i => nearestIndex (qs.getD i []) rs == i) : ℕ) : ℚ)
      / (qs.length : ℚ) ≤ 1 ∧
    ((((List.range qs.length).countP
        (fun i => nearestIndex (qs.getD i []) rs == i) : ℕ) : ℚ)
      / (qs.length : ℚ) = 1
      ↔ ∀ i < qs.length, nearestIndex (qs.getD i []) rs = i) ∧
    ∀ i < qs.length,
      nearestIndex (qs.getD i []) rs < rs.length ∧
      ∀ j < rs.length,
        cosineDistance (qs.getD i []) (rs.getD (nearestIndex (qs.getD i []) rs) [])
          ≤ cosineDistance (qs.getD i []) (rs.getD j []) := by
  have hn : 0 < qs.length := List.length_pos.mpr hne
  have hrsne : rs ≠ [] := by
    intro h
    subst h
    simp only [List.length_nil] at hlen
    omega
  have hrn : 0 < rs.length := List.length_pos.mpr hrsne
  have hmap : (qs.map (fun q => nearestIndex q rs)).length = qs.length :=
    List.length_map qs _
  have key : (List.zipWith (fun a b => a == b) (qs.map (fun q => nearestIndex q rs))
        (List.range rs.length)).count true
      = (List.range qs.length).countP
          (fun i => nearestIndex (qs.getD i []) rs == i) := by
    have h0 := count_zipWith_range (qs.map (fun q => nearestIndex q rs)) 0
    rw [hmap] at h0
    have hr0 : List.range rs.length = List.range' 0 qs.length := by
      rw [List.range_eq_range', hlen]
    rw [hr0, h0, ← List.range_eq_range']
    apply countP_congr_fun
    intro i hi
    have hilt : i < qs.length := List.mem_range.mp hi
    rw [Nat.sub_zero, getD_map_of_lt _ _ _ hilt [] 0]
  have hval : translation_search qs rs
      = .ok [("recall@1", .num
          ((((List.range qs.length).countP
              (fun i => nearestIndex (qs.getD i []) rs == i) : ℕ) : ℚ)
            / (qs.length : ℚ)))] := by
    have hrsempty : rs.isEmpty = false := by
      cases rs with
      | nil => cases hrsne rfl
      | cons a t => rfl
    have hqsempty : qs.isEmpty = false := by
      cases qs with
      | nil => cases hne rfl
      | cons a t => rfl
    rw [translation_search, hrsempty, hqsempty]
    simp only [Bool.false_eq_true, if_false]
    rw [key]
    rw [List.length_range, ← hlen]
  refine ⟨hval, div_nonneg (Nat.cast_nonneg _) (Nat.cast_nonneg _), ?_, ?_, ?_⟩
  · rw [div_le_one (by exact_mod_cast hn)]
    have hle : (List.range qs.length).countP
        (fun i => nearestIndex (qs.getD i []) rs == i) ≤ qs.length := by
      have := List.countP_le_length
        (fun i => nearestIndex (qs.getD i []) rs == i)
        (l := List.range qs.length)
      rwa [List.length_range] at this
    exact_mod_cast hle
  · rw [div_eq_one_iff_eq (by exact_mod_cast hn.ne')]
    rw [Nat.cast_inj]
    constructor
    · intro h i hilt
      have hall := List.countP_eq_length.mp (by rw [h, List.length_range])
      have := hall i (List.mem_range.mpr hilt)
      exact beq_iff_eq.mp (by simpa using this)
    · intro h
      have hiff := List.countP_eq_length
        (p := fun i => nearestIndex (qs.getD i []) rs == i)
        (l := List.range qs.length)
      rw [List.length_range] at hiff
      apply hiff.mpr
      intro i hi
      simp only [beq_iff_eq]
      exact h i (List.mem_range.mp hi)
  · intro i hilt
    exact nearestIndex_spec (qs.getD i []) rs hrsne
      (hq _ (getD_mem_of_lt _ _ hilt _)) hr

theorem translation_search_recall_spec_witness :
    (translation_search [[1, 0], [0, 1]] [[1, 0], [0, 1]]
      = .ok [("recall@1", .num
          ((((List.range ([[(1 : ℤ), 0], [0, 1]] : List (List ℤ)).length).countP
              (fun i => nearestIndex (([[(1 : ℤ), 0], [0, 1]] : List (List ℤ)).getD i [])
                [[1, 0], [0, 1]] == i) : ℕ) : ℚ)
            / (([[(1 : ℤ), 0], [0, 1]] : List (List ℤ)).length : ℚ)))]) ∧
    0 ≤ (((List.range ([[(1 : ℤ), 0], [0, 1]] : List (List ℤ)).length).countP
        (fun i => nearestIndex (([[(1 : ℤ), 0], [0, 1]] : List (List ℤ)).getD i [])
          [[1, 0], [0, 1]] == i) : ℕ) : ℚ)
      / (([[(1 : ℤ), 0], [0, 1]] : List (List ℤ)).length : ℚ) ∧
    (((List.range ([[(1 : ℤ), 0], [0, 1]] : List (List ℤ)).length).countP
        (fun i => nearestIndex (([[(1 : ℤ), 0], [0, 1]] : List (List ℤ)).getD i [])
          [[1, 0], [0, 1]] == i) : ℕ) : ℚ)
      / (([[(1 : ℤ), 0], [0, 1]] : List (List ℤ)).length : ℚ) ≤ 1 ∧
    ((((List.range ([[(1 : ℤ), 0], [0, 1]] : List (List ℤ)).length).countP
        (fun i => nearestIndex (([[(1 : ℤ), 0], [0, 1]] : List (List ℤ)).getD i [])
          [[1, 0], [0, 1]] == i) : ℕ) : ℚ)
      / (([[(1 : ℤ), 0], [0, 1]] : List (List ℤ)).length : ℚ) = 1
      ↔ ∀ i < ([[(1 : ℤ), 0], [0, 1]] : List (List ℤ)).length,
          nearestIndex (([[(1 : ℤ), 0], [0, 1]] : List (List ℤ)).getD i [])
            [[1, 0], [0, 1]] = i) ∧
    ∀ i < ([[(1 : ℤ), 0], [0, 1]] : List (List ℤ)).length,
      nearestIndex (([[(1 : ℤ), 0], [0, 1]] : List (List ℤ)).getD i [])
          [[1, 0], [0, 1]] < ([[(1 : ℤ), 0], [0, 1]] : List (List ℤ)).length ∧
      ∀ j < ([[(1 : ℤ), 0], [0, 1]] : List (List ℤ)).length,
        cosineDistance (([[(1 : ℤ), 0], [0, 1]] : List (List ℤ)).getD i [])
            (([[(1 : ℤ), 0], [0, 1]] : List (List ℤ)).getD
              (nearestIndex (([[(1 : ℤ), 0], [0, 1]] : List (List ℤ)).getD i [])
                [[1, 0], [0, 1]]) [])
          ≤ cosineDistance (([[(1 : ℤ), 0], [0, 1]] : List (List ℤ)).getD i [])
              (([[(1 : ℤ), 0], [0, 1]] : List (List ℤ)).getD j []) :=
  translation_search_recall_spec [[1, 0], [0, 1]] [[1, 0], [0, 1]] rfl
    (by decide) (by decide) (by decide)
